import Mathlib

/-!
Shallow embedding of the API client, response cache and asynchronous
task-polling protocol of the `ai_study_buddy` mobile application
(`src/services/image.ts`, `src/services/analysis.ts`, and the API client
module with cache/retry/token handling), together with theorems settling
the specification claims about them.

Conventions of the embedding:
* JavaScript `number` values that the code only compares and counts are
  modelled as `Nat` (timestamps, statuses, attempt counters); the
  `maxAttempts` parameter of the pollers is modelled as `Int` because the
  source accepts any number and only compares it.
* JavaScript truthiness of optional strings (`s || dflt`) is modelled by
  `jsOrStr`: an absent or empty string falls back to the default.
* JavaScript truthiness of optional numbers (`if (x)`) is modelled by
  `jsTruthyNat`: absent or zero is falsy.
* `async`/`await` sequencing is modelled by explicit state passing;
  thrown errors become `Except` values; `setTimeout` delays are recorded
  as data where a claim talks about them and dropped otherwise.
* The `while (attempts < maxAttempts)` loops run their body exactly
  `maxAttempts.toNat` times unless they exit early (the counter starts at
  0 and increases by 1 each iteration), so they are embedded by structural
  recursion on a fuel initialised to `maxAttempts.toNat`; the in-body
  check `attempts >= maxAttempts` is kept in its source form.
-/

/-- Decidable equality for `Except`, so that concrete poll traces can be
compared by evaluation. -/
instance {ε α : Type} [DecidableEq ε] [DecidableEq α] :
    DecidableEq (Except ε α) := fun a b =>
  match a, b with
  | .ok x, .ok y =>
    if h : x = y then .isTrue (by rw [h])
    else .isFalse (fun hc => h (Except.ok.inj hc))
  | .error x, .error y =>
    if h : x = y then .isTrue (by rw [h])
    else .isFalse (fun hc => h (Except.error.inj hc))
  | .ok _, .error _ => .isFalse (fun hc => Except.noConfusion hc)
  | .error _, .ok _ => .isFalse (fun hc => Except.noConfusion hc)

/-- JavaScript `s || dflt` on an optional string: `undefined` and the
empty string are falsy. -/
def jsOrStr (o : Option String) (dflt : String) : String :=
  match o with
  | some v => if v = "" then dflt else v
  | none => dflt

/-- JavaScript truthiness of an optional number (`undefined` and `0` are
falsy). -/
def jsTruthyNat (o : Option Nat) : Bool :=
  match o with
  | some v => v != 0
  | none => false

/-- Task status reported by a poll snapshot
(`'processing' | 'completed' | 'failed'`). -/
inductive TaskStatus
  | processing
  | completed
  | failed
deriving DecidableEq, Repr

/-- `OCRResultResponse` of `src/services/image.ts`: one poll snapshot of
an OCR task.  The result payload type is left abstract (the poller never
inspects it, only its presence). -/
structure OCRResultResponse (R : Type) where
  taskId : String
  status : TaskStatus
  result : Option R
  error : Option String
deriving DecidableEq, Repr

/-- `QuestionAnalysisStatusResponse` of `src/services/analysis.ts`: one
poll snapshot of an analysis task, with its optional numeric progress. -/
structure QuestionAnalysisStatusResponse (R : Type) where
  taskId : String
  status : TaskStatus
  progress : Option Nat
  result : Option R
  error : Option String
deriving DecidableEq, Repr

/-- Observable behaviour of one run of a polling loop: how many poll
calls were made, the arguments of every `onUpdate` invocation in order,
and the final outcome (`Except.error` is a thrown `Error` message). -/
structure PollRun (U R : Type) where
  polls : Nat
  updates : List U
  outcome : Except String R
deriving DecidableEq, Repr

/-- Loop body of `pollOCRResult` (`src/services/image.ts`).  The task is
the sequence of snapshots the server returns to the 1st, 2nd, ... poll
call.  `attempts0` is the value of `attempts` at the loop head, `polls`
and `updates` accumulate the observable trace.  The fuel equals
`(maxAttempts - attempts0).toNat`, so `fuel = 0` is exactly the exit of
`while (attempts < maxAttempts)`.  A `failed` snapshot throws inside the
`try`; the `catch` rethrows only when `attempts >= maxAttempts` and
otherwise continues the loop. -/
def pollOCRAux (task : Nat → OCRResultResponse R) (maxAttempts : Int) :
    Nat → Nat → Nat → List (String × Nat) → PollRun (String × Nat) R
  | 0, _, polls, updates => ⟨polls, updates, .error "处理超时，请重试"⟩
  | fuel+1, attempts0, polls, updates =>
    let attempts := attempts0 + 1
    let updates := updates ++ [("正在处理...", attempts)]
    let result := task attempts
    let polls := polls + 1
    if h : result.status = .completed ∧ result.result.isSome then
      ⟨polls, updates, .ok (result.result.get h.2)⟩
    else if result.status = .failed then
      if (attempts : Int) ≥ maxAttempts then
        ⟨polls, updates, .error (jsOrStr result.error "图像处理失败")⟩
      else
        pollOCRAux task maxAttempts fuel attempts polls updates
    else
      pollOCRAux task maxAttempts fuel attempts polls updates

/-- `pollOCRResult` of `src/services/image.ts`, as the observable trace
of the loop run against the snapshot sequence `task`. -/
def pollOCRResult (task : Nat → OCRResultResponse R) (maxAttempts : Int) :
    PollRun (String × Nat) R :=
  pollOCRAux task maxAttempts maxAttempts.toNat 0 0 []

/-- Loop body of `pollAnalysisResult` (`src/services/analysis.ts`).  Like
`pollOCRAux`, but `onUpdate` receives a percentage
(`attempts / maxAttempts * 100`, recorded exactly as a rational) and an
extra `onUpdate('正在解析题目...', result.progress)` fires for every
snapshot whose `progress` is truthy. -/
def pollAnalysisAux (task : Nat → QuestionAnalysisStatusResponse R)
    (maxAttempts : Int) :
    Nat → Nat → Nat → List (String × ℚ) → PollRun (String × ℚ) R
  | 0, _, polls, updates => ⟨polls, updates, .error "处理超时，请重试"⟩
  | fuel+1, attempts0, polls, updates =>
    let attempts := attempts0 + 1
    let updates := updates ++ [("正在处理...", (attempts : ℚ) / (maxAttempts : ℚ) * 100)]
    let result := task attempts
    let polls := polls + 1
    let updates := if jsTruthyNat result.progress then
        updates ++ [("正在解析题目...", ((result.progress.getD 0 : Nat) : ℚ))]
      else updates
    if h : result.status = .completed ∧ result.result.isSome then
      ⟨polls, updates, .ok (result.result.get h.2)⟩
    else if result.status = .failed then
      if (attempts : Int) ≥ maxAttempts then
        ⟨polls, updates, .error (jsOrStr result.error "题目分析失败")⟩
      else
        pollAnalysisAux task maxAttempts fuel attempts polls updates
    else
      pollAnalysisAux task maxAttempts fuel attempts polls updates

/-- `pollAnalysisResult` of `src/services/analysis.ts`, as the observable
trace of the loop run against the snapshot sequence `task`. -/
def pollAnalysisResult (task : Nat → QuestionAnalysisStatusResponse R)
    (maxAttempts : Int) : PollRun (String × ℚ) R :=
  pollAnalysisAux task maxAttempts maxAttempts.toNat 0 0 []

/-- One loop iteration of `pollOCRResult` on a `processing` snapshot:
record the `onUpdate` call and the poll, then continue. -/
theorem pollOCRAux_step_continue (task : Nat → OCRResultResponse R) (m : Int)
    (fuel a p : Nat) (u : List (String × Nat))
    (hst : (task (a+1)).status = .processing) :
    pollOCRAux task m (fuel+1) a p u =
      pollOCRAux task m fuel (a+1) (p+1) (u ++ [("正在处理...", a+1)]) := by
  simp [pollOCRAux, hst]

/-- One loop iteration of `pollOCRResult` on a `completed` snapshot that
carries a result: the loop returns that result. -/
theorem pollOCRAux_step_done (task : Nat → OCRResultResponse R) (m : Int)
    (fuel a p : Nat) (u : List (String × Nat)) (r : R)
    (hst : (task (a+1)).status = .completed)
    (hr : (task (a+1)).result = some r) :
    pollOCRAux task m (fuel+1) a p u =
      ⟨p+1, u ++ [("正在处理...", a+1)], .ok r⟩ := by
  simp [pollOCRAux, hst, hr]

/-- One loop iteration of `pollOCRResult` on a `failed` snapshot: the
thrown task error is rethrown only on the final allowed attempt
(`attempts >= maxAttempts`); otherwise the `catch` continues the loop. -/
theorem pollOCRAux_step_failed (task : Nat → OCRResultResponse R) (m : Int)
    (fuel a p : Nat) (u : List (String × Nat))
    (hst : (task (a+1)).status = .failed) :
    pollOCRAux task m (fuel+1) a p u =
      if ((a+1 : Nat) : Int) ≥ m then
        ⟨p+1, u ++ [("正在处理...", a+1)],
          .error (jsOrStr (task (a+1)).error "图像处理失败")⟩
      else pollOCRAux task m fuel (a+1) (p+1) (u ++ [("正在处理...", a+1)]) := by
  simp [pollOCRAux, hst]

/-- A task whose snapshots are always `processing` drives `pollOCRAux`
through all of its fuel and into the timeout error, one poll per unit of
fuel. -/
theorem pollOCRAux_processing_all (task : Nat → OCRResultResponse R) (m : Int)
    (h : ∀ n, (task n).status = .processing) :
    ∀ fuel a p u,
      (pollOCRAux task m fuel a p u).outcome = .error "处理超时，请重试" ∧
      (pollOCRAux task m fuel a p u).polls = p + fuel := by
  intro fuel
  induction fuel with
  | zero => intro a p u; exact ⟨rfl, rfl⟩
  | succ f ih =>
    intro a p u
    rw [pollOCRAux_step_continue task m f a p u (h (a+1))]
    obtain ⟨o1, o2⟩ := ih (a+1) (p+1) (u ++ [("正在处理...", a+1)])
    exact ⟨o1, by omega⟩

/-- A task whose snapshots are always `failed` (with a non-empty server
error text) makes `pollOCRAux` consume all of its fuel — one poll per
unit — before the error finally surfaces on the last allowed attempt. -/
theorem pollOCRAux_failed_all (task : Nat → OCRResultResponse R) (m : Int)
    (e : String) (he : e ≠ "")
    (h : ∀ n, (task n).status = .failed ∧ (task n).error = some e) :
    ∀ (fuel a p : Nat) (u : List (String × Nat)), 1 ≤ fuel → (fuel : Int) + a = m →
      (pollOCRAux task m fuel a p u).outcome = .error e ∧
      (pollOCRAux task m fuel a p u).polls = p + fuel := by
  intro fuel
  induction fuel with
  | zero => intro a p u h1 _; omega
  | succ f ih =>
    intro a p u _ hsum
    obtain ⟨hs, herr⟩ := h (a+1)
    rw [pollOCRAux_step_failed task m f a p u hs]
    by_cases hf : f = 0
    · subst hf
      rw [if_pos (by omega)]
      exact ⟨by simp [herr, jsOrStr, he], rfl⟩
    · rw [if_neg (by omega)]
      obtain ⟨o1, o2⟩ := ih (a+1) (p+1) (u ++ [("正在处理...", a+1)])
        (by omega) (by push_cast at hsum ⊢; omega)
      exact ⟨o1, by omega⟩

/-- One loop iteration of `pollAnalysisResult` on a `processing`
snapshot without a truthy progress value. -/
theorem pollAnalysisAux_step_continue (task : Nat → QuestionAnalysisStatusResponse R)
    (m : Int) (fuel a p : Nat) (u : List (String × ℚ))
    (hst : (task (a+1)).status = .processing)
    (hp : (task (a+1)).progress = none) :
    pollAnalysisAux task m (fuel+1) a p u =
      pollAnalysisAux task m fuel (a+1) (p+1)
        (u ++ [("正在处理...", ((a+1 : Nat) : ℚ) / (m : ℚ) * 100)]) := by
  simp [pollAnalysisAux, hst, hp, jsTruthyNat]

/-- One loop iteration of `pollAnalysisResult` on a `completed` snapshot
carrying a result and no truthy progress value. -/
theorem pollAnalysisAux_step_done (task : Nat → QuestionAnalysisStatusResponse R)
    (m : Int) (fuel a p : Nat) (u : List (String × ℚ)) (r : R)
    (hst : (task (a+1)).status = .completed)
    (hp : (task (a+1)).progress = none)
    (hr : (task (a+1)).result = some r) :
    pollAnalysisAux task m (fuel+1) a p u =
      ⟨p+1, u ++ [("正在处理...", ((a+1 : Nat) : ℚ) / (m : ℚ) * 100)], .ok r⟩ := by
  simp [pollAnalysisAux, hst, hp, hr, jsTruthyNat]

/-- Always-`processing` analogue of `pollOCRAux_processing_all` for the
analysis poller; the snapshots may carry arbitrary progress values. -/
theorem pollAnalysisAux_processing_all (task : Nat → QuestionAnalysisStatusResponse R)
    (m : Int) (h : ∀ n, (task n).status = .processing) :
    ∀ fuel a p u,
      (pollAnalysisAux task m fuel a p u).outcome = .error "处理超时，请重试" ∧
      (pollAnalysisAux task m fuel a p u).polls = p + fuel := by
  intro fuel
  induction fuel with
  | zero => intro a p u; exact ⟨rfl, rfl⟩
  | succ f ih =>
    intro a p u
    have hs := h (a+1)
    simp only [pollAnalysisAux, hs]
    simp only [reduceCtorEq, false_and, dite_false, if_false]
    obtain ⟨o1, o2⟩ := ih (a+1) (p+1)
      (if jsTruthyNat (task (a+1)).progress then
        (u ++ [("正在处理...", ((a+1 : Nat) : ℚ) / (m : ℚ) * 100)]) ++
          [("正在解析题目...", (((task (a+1)).progress.getD 0 : Nat) : ℚ))]
      else u ++ [("正在处理...", ((a+1 : Nat) : ℚ) / (m : ℚ) * 100)])
    exact ⟨o1, by omega⟩

/-- Always-`failed` analogue of `pollOCRAux_failed_all` for the analysis
poller. -/
theorem pollAnalysisAux_failed_all (task : Nat → QuestionAnalysisStatusResponse R)
    (m : Int) (e : String) (he : e ≠ "")
    (h : ∀ n, (task n).status = .failed ∧ (task n).error = some e) :
    ∀ (fuel a p : Nat) (u : List (String × ℚ)), 1 ≤ fuel → (fuel : Int) + a = m →
      (pollAnalysisAux task m fuel a p u).outcome = .error e ∧
      (pollAnalysisAux task m fuel a p u).polls = p + fuel := by
  intro fuel
  induction fuel with
  | zero => intro a p u h1 _; omega
  | succ f ih =>
    intro a p u _ hsum
    obtain ⟨hs, herr⟩ := h (a+1)
    simp only [pollAnalysisAux, hs]
    simp only [reduceCtorEq, false_and, dite_false, if_true]
    by_cases hf : f = 0
    · subst hf
      rw [if_pos (by omega)]
      exact ⟨by simp [herr, jsOrStr, he], rfl⟩
    · rw [if_neg (by omega)]
      obtain ⟨o1, o2⟩ := ih (a+1) (p+1) _ (by omega) (by push_cast at hsum ⊢; omega)
      exact ⟨o1, by omega⟩


/-- Snapshot sequence used to refute claim C1 for the OCR poller: the
task reports `processing` on attempt 1 and `failed` (with a server error
text) from attempt 2 on. -/
def taskC1ocr : Nat → OCRResultResponse Nat := fun n =>
  if n = 1 then ⟨"t1", .processing, none, none⟩
  else ⟨"t1", .failed, none, some "服务器返回的错误"⟩

/-- Analysis-poller version of `taskC1ocr`. -/
def taskC1ana : Nat → QuestionAnalysisStatusResponse Nat := fun n =>
  if n = 1 then ⟨"t1", .processing, none, none, none⟩
  else ⟨"t1", .failed, none, none, some "服务器返回的错误"⟩

/-- C1 is false on the code: with `maxAttempts = 3` and a task that
reports `failed` on attempt 2, both pollers make a further poll call
(3 polls in total, not 2) — the task error thrown on attempt 2 is caught
by the loop's `catch` and polling continues; the server text surfaces
only on the final attempt. -/
theorem claim_C1_counterexample :
    (pollOCRResult taskC1ocr 3).polls = 3 ∧
    (pollOCRResult taskC1ocr 3).polls ≠ 2 ∧
    (pollOCRResult taskC1ocr 3).outcome = .error "服务器返回的错误" ∧
    (pollAnalysisResult taskC1ana 3).polls = 3 ∧
    (pollAnalysisResult taskC1ana 3).polls ≠ 2 := by
  refine ⟨by decide, by decide, by decide, ?_, ?_⟩ <;> decide

/-- C1 (amended): a `failed` snapshot on an attempt `k < maxAttempts`
does not stop the loop — the task error is caught and polling continues;
the server-provided error text surfaces only when the `failed` snapshot
occurs on the final allowed attempt.  In particular, a task that always
reports `failed` with non-empty server text `e` produces exactly
`maxAttempts` poll calls and then fails with `e`, for both
`pollOCRResult` and `pollAnalysisResult`. -/
theorem claim_C1_amended {RO RA : Type} (m : Int) (hm : 1 ≤ m)
    (e : String) (he : e ≠ "")
    (taskO : Nat → OCRResultResponse RO)
    (taskA : Nat → QuestionAnalysisStatusResponse RA)
    (hO : ∀ n, (taskO n).status = .failed ∧ (taskO n).error = some e)
    (hA : ∀ n, (taskA n).status = .failed ∧ (taskA n).error = some e) :
    (pollOCRResult taskO m).outcome = .error e ∧
    ((pollOCRResult taskO m).polls : Int) = m ∧
    (pollAnalysisResult taskA m).outcome = .error e ∧
    ((pollAnalysisResult taskA m).polls : Int) = m := by
  obtain ⟨o1, o2⟩ := pollOCRAux_failed_all taskO m e he hO m.toNat 0 0 []
    (by omega) (by omega)
  obtain ⟨a1, a2⟩ := pollAnalysisAux_failed_all taskA m e he hA m.toNat 0 0 []
    (by omega) (by omega)
  exact ⟨o1, by simp only [pollOCRResult]; omega,
    a1, by simp only [pollAnalysisResult]; omega⟩

/-- Witness for `claim_C1_amended` at `maxAttempts = 2` and a task that
always reports `failed` with error text `"任务失败"`. -/
theorem claim_C1_amended_witness :
    (pollOCRResult (fun _ => (⟨"t", .failed, none, some "任务失败"⟩ :
        OCRResultResponse Nat)) 2).outcome = .error "任务失败" ∧
    ((pollOCRResult (fun _ => (⟨"t", .failed, none, some "任务失败"⟩ :
        OCRResultResponse Nat)) 2).polls : Int) = 2 ∧
    (pollAnalysisResult (fun _ => (⟨"t", .failed, none, none, some "任务失败"⟩ :
        QuestionAnalysisStatusResponse Nat)) 2).outcome = .error "任务失败" ∧
    ((pollAnalysisResult (fun _ => (⟨"t", .failed, none, none, some "任务失败"⟩ :
        QuestionAnalysisStatusResponse Nat)) 2).polls : Int) = 2 :=
  claim_C1_amended 2 (by decide) "任务失败" (by decide) _ _
    (fun _ => ⟨rfl, rfl⟩) (fun _ => ⟨rfl, rfl⟩)

/-- C5: for every `maxAttempts ≥ 1` and every task whose snapshots always
report `processing`, both pollers fail with the timeout error after
making exactly `maxAttempts` poll calls. -/
theorem claim_C5 {RO RA : Type} (m : Int) (hm : 1 ≤ m)
    (taskO : Nat → OCRResultResponse RO)
    (taskA : Nat → QuestionAnalysisStatusResponse RA)
    (hO : ∀ n, (taskO n).status = .processing)
    (hA : ∀ n, (taskA n).status = .processing) :
    (pollOCRResult taskO m).outcome = .error "处理超时，请重试" ∧
    ((pollOCRResult taskO m).polls : Int) = m ∧
    (pollAnalysisResult taskA m).outcome = .error "处理超时，请重试" ∧
    ((pollAnalysisResult taskA m).polls : Int) = m := by
  obtain ⟨o1, o2⟩ := pollOCRAux_processing_all taskO m hO m.toNat 0 0 []
  obtain ⟨a1, a2⟩ := pollAnalysisAux_processing_all taskA m hA m.toNat 0 0 []
  exact ⟨o1, by simp only [pollOCRResult]; omega,
    a1, by simp only [pollAnalysisResult]; omega⟩

/-- Witness for `claim_C5` at `maxAttempts = 2` and constantly
`processing` tasks. -/
theorem claim_C5_witness :
    (pollOCRResult (fun _ => (⟨"t", .processing, none, none⟩ :
        OCRResultResponse Nat)) 2).outcome = .error "处理超时，请重试" ∧
    ((pollOCRResult (fun _ => (⟨"t", .processing, none, none⟩ :
        OCRResultResponse Nat)) 2).polls : Int) = 2 ∧
    (pollAnalysisResult (fun _ => (⟨"t", .processing, some 40, none, none⟩ :
        QuestionAnalysisStatusResponse Nat)) 2).outcome = .error "处理超时，请重试" ∧
    ((pollAnalysisResult (fun _ => (⟨"t", .processing, some 40, none, none⟩ :
        QuestionAnalysisStatusResponse Nat)) 2).polls : Int) = 2 :=
  claim_C5 2 (by decide) _ _ (fun _ => rfl) (fun _ => rfl)

/-- C10: with `maxAttempts ≤ 0` the `while (attempts < maxAttempts)`
loop of either poller never runs: zero poll calls, zero `onUpdate`
invocations, and the same timeout error that exhaustion of the attempt
budget produces. -/
theorem claim_C10 {RO RA : Type} (m : Int) (hm : m ≤ 0)
    (taskO : Nat → OCRResultResponse RO)
    (taskA : Nat → QuestionAnalysisStatusResponse RA) :
    pollOCRResult taskO m = ⟨0, [], .error "处理超时，请重试"⟩ ∧
    pollAnalysisResult taskA m = ⟨0, [], .error "处理超时，请重试"⟩ := by
  have h0 : m.toNat = 0 := by omega
  constructor
  · show pollOCRAux taskO m m.toNat 0 0 [] = _
    rw [h0]
    rfl
  · show pollAnalysisAux taskA m m.toNat 0 0 [] = _
    rw [h0]
    rfl

/-- Witness for `claim_C10` at `maxAttempts = -2`. -/
theorem claim_C10_witness :
    pollOCRResult (fun _ => (⟨"t", .processing, none, none⟩ :
        OCRResultResponse Nat)) (-2) = ⟨0, [], .error "处理超时，请重试"⟩ ∧
    pollAnalysisResult (fun _ => (⟨"t", .processing, none, none, none⟩ :
        QuestionAnalysisStatusResponse Nat)) (-2) = ⟨0, [], .error "处理超时，请重试"⟩ :=
  claim_C10 (-2) (by decide) _ _

/-- Snapshot sequence used to refute claim C7 for the analysis poller:
`processing` with progress 30, `processing` with progress 70, then
`completed` with a result — the scenario of the spec's own concrete
polling example. -/
def taskC7ana : Nat → QuestionAnalysisStatusResponse Nat := fun n =>
  if n = 1 then ⟨"t1", .processing, some 30, none, none⟩
  else if n = 2 then ⟨"t1", .processing, some 70, none, none⟩
  else ⟨"t1", .completed, none, some 7, none⟩

/-- C7 is false on the code for `pollAnalysisResult`: on a task that
polls processing → processing → completed over 3 poll calls, snapshots
carrying a truthy `progress` trigger a second `onUpdate` call in the
same attempt, so `onUpdate` runs 5 times, not exactly 3. -/
theorem claim_C7_counterexample :
    (pollAnalysisResult taskC7ana 5).outcome = .ok 7 ∧
    (pollAnalysisResult taskC7ana 5).polls = 3 ∧
    (pollAnalysisResult taskC7ana 5).updates.length = 5 ∧
    (pollAnalysisResult taskC7ana 5).updates.length ≠ 3 := by
  refine ⟨?_, ?_, ?_, ?_⟩ <;> decide

/-- C7 (amended): on a task that polls processing → processing →
completed over 3 poll calls (with `maxAttempts ≥ 3`), `pollOCRResult`
returns the completed result and invokes `onUpdate` exactly 3 times with
strictly increasing attempt indices 1, 2, 3; `pollAnalysisResult` also
returns the result after 3 polls, but its `onUpdate` receives a
percentage rather than the attempt index and fires once per attempt
*plus* once per snapshot carrying a truthy progress value — exactly 3
times only when no polled snapshot carries one. -/
theorem claim_C7_amended {RO RA : Type} (m : Int) (hm : 3 ≤ m) (rO : RO) (rA : RA)
    (taskO : Nat → OCRResultResponse RO)
    (taskA : Nat → QuestionAnalysisStatusResponse RA)
    (h1 : (taskO 1).status = .processing)
    (h2 : (taskO 2).status = .processing)
    (h3s : (taskO 3).status = .completed)
    (h3r : (taskO 3).result = some rO)
    (g1s : (taskA 1).status = .processing) (g1p : (taskA 1).progress = none)
    (g2s : (taskA 2).status = .processing) (g2p : (taskA 2).progress = none)
    (g3s : (taskA 3).status = .completed) (g3p : (taskA 3).progress = none)
    (g3r : (taskA 3).result = some rA) :
    pollOCRResult taskO m =
      ⟨3, [("正在处理...", 1), ("正在处理...", 2), ("正在处理...", 3)], .ok rO⟩ ∧
    (pollAnalysisResult taskA m).polls = 3 ∧
    (pollAnalysisResult taskA m).updates.length = 3 ∧
    (pollAnalysisResult taskA m).outcome = .ok rA := by
  obtain ⟨k, hk⟩ : ∃ k, m.toNat = k + 3 := ⟨m.toNat - 3, by omega⟩
  have eO : pollOCRResult taskO m =
      ⟨3, [("正在处理...", 1), ("正在处理...", 2), ("正在处理...", 3)], .ok rO⟩ := by
    show pollOCRAux taskO m m.toNat 0 0 [] = _
    rw [hk, pollOCRAux_step_continue taskO m (k+2) 0 0 [] h1,
      pollOCRAux_step_continue taskO m (k+1) 1 1 _ h2,
      pollOCRAux_step_done taskO m k 2 2 _ rO h3s h3r]
    simp
  have eA : pollAnalysisResult taskA m =
      ⟨3, [("正在处理...", ((1 : Nat) : ℚ) / (m : ℚ) * 100),
           ("正在处理...", ((2 : Nat) : ℚ) / (m : ℚ) * 100),
           ("正在处理...", ((3 : Nat) : ℚ) / (m : ℚ) * 100)], .ok rA⟩ := by
    show pollAnalysisAux taskA m m.toNat 0 0 [] = _
    rw [hk, pollAnalysisAux_step_continue taskA m (k+2) 0 0 [] g1s g1p,
      pollAnalysisAux_step_continue taskA m (k+1) 1 1 _ g2s g2p,
      pollAnalysisAux_step_done taskA m k 2 2 _ rA g3s g3p g3r]
    norm_num
  exact ⟨eO, by rw [eA], by rw [eA]; rfl, by rw [eA]⟩

/-- Witness for `claim_C7_amended`: `maxAttempts = 5`, progress-free
snapshots processing, processing, completed-with-result. -/
theorem claim_C7_amended_witness :
    pollOCRResult (fun n =>
      if n ≤ 2 then (⟨"t", .processing, none, none⟩ : OCRResultResponse Nat)
      else ⟨"t", .completed, some 9, none⟩) 5 =
      ⟨3, [("正在处理...", 1), ("正在处理...", 2), ("正在处理...", 3)], .ok 9⟩ ∧
    (pollAnalysisResult (fun n =>
      if n ≤ 2 then (⟨"t", .processing, none, none, none⟩ :
        QuestionAnalysisStatusResponse Nat)
      else ⟨"t", .completed, none, some 9, none⟩) 5).polls = 3 ∧
    (pollAnalysisResult (fun n =>
      if n ≤ 2 then (⟨"t", .processing, none, none, none⟩ :
        QuestionAnalysisStatusResponse Nat)
      else ⟨"t", .completed, none, some 9, none⟩) 5).updates.length = 3 ∧
    (pollAnalysisResult (fun n =>
      if n ≤ 2 then (⟨"t", .processing, none, none, none⟩ :
        QuestionAnalysisStatusResponse Nat)
      else ⟨"t", .completed, none, some 9, none⟩) 5).outcome = .ok 9 :=
  claim_C7_amended 5 (by decide) 9 9 _ _
    rfl rfl rfl rfl rfl rfl rfl rfl rfl rfl rfl

/-- The `ApiError` class of the API client module: a message plus an
optional HTTP status code (`0` encodes a pure connectivity failure). -/
structure ApiErrorM where
  message : String
  statusCode : Option Nat
deriving DecidableEq, Repr

/-- A response body as the client sees it: either the standard envelope
`\x7b success, data?, error?, message? \x7d` or a bare payload with none
of those fields (reading an absent field in JavaScript yields
`undefined`, i.e. `none` / falsy here). -/
inductive ResponseBody (T : Type)
  | envelope (success : Bool) (data : Option T) (error : Option String)
      (message : Option String)
  | raw (payload : T)
deriving DecidableEq, Repr

/-- JavaScript read of `body.success` (absent on a bare payload, hence
falsy). -/
def ResponseBody.successField : ResponseBody T → Bool
  | .envelope s _ _ _ => s
  | .raw _ => false

/-- JavaScript read of `body.data`. -/
def ResponseBody.dataField : ResponseBody T → Option T
  | .envelope _ d _ _ => d
  | .raw _ => none

/-- JavaScript read of `body.error`. -/
def ResponseBody.errorField : ResponseBody T → Option String
  | .envelope _ _ e _ => e
  | .raw _ => none

/-- JavaScript read of `body.message`. -/
def ResponseBody.messageField : ResponseBody T → Option String
  | .envelope _ _ _ m => m
  | .raw _ => none

/-- `ApiClient.handleApiResponse`: return `data.data` when
`data.success && data.data !== undefined`, otherwise throw an `ApiError`
built from `data.message || data.error || '请求失败'` and the HTTP
status. -/
def handleApiResponse (status : Nat) (body : ResponseBody T) : Except ApiErrorM T :=
  if h : body.successField ∧ body.dataField.isSome then
    .ok (body.dataField.get h.2)
  else
    .error ⟨jsOrStr body.messageField (jsOrStr body.errorField "请求失败"), some status⟩

/-- Authentication state of the client: the in-memory `authToken` field
and the value persisted in `AsyncStorage` under the token storage key. -/
structure AuthState where
  authToken : Option String
  storedToken : Option String
deriving DecidableEq, Repr

/-- `ApiClient.clearAuthToken`: null the in-memory token and remove the
persisted one. -/
def clearAuthToken (_s : AuthState) : AuthState := ⟨none, none⟩

/-- What the transport produces for one attempt of a request: either no
HTTP response at all (connectivity failure) or a response with a status
and body. -/
inductive TransportResult (T : Type)
  | noResponse
  | response (status : Nat) (body : ResponseBody T)
deriving DecidableEq, Repr

/-- What the response interceptor's error handler decides: re-issue the
request after a delay, or reject with an `ApiError`. -/
inductive InterceptAction
  | retryAfter (delay : Nat) (newRetryCount : Nat)
  | reject (e : ApiErrorM)
deriving DecidableEq, Repr

/-- Error branch of the response interceptor of the API client.  With no
response: retry while `config._retryCount < 2`, with delay
`1000 * 2 ^ (_retryCount - 1)` after incrementing, else reject an
`ApiError` with status code 0.  With a response: on status 401 clear the
auth token; in all cases reject an `ApiError` carrying
`responseData?.message || responseData?.error || '请求失败'` and the
status. -/
def responseErrorInterceptor (s : AuthState) (retryCount : Nat) :
    TransportResult T → AuthState × InterceptAction
  | .noResponse =>
    if retryCount < 2 then
      (s, .retryAfter (1000 * 2 ^ (retryCount + 1 - 1)) (retryCount + 1))
    else
      (s, .reject ⟨"网络连接失败，请检查您的互联网连接", some 0⟩)
  | .response status body =>
    let s' := if status = 401 then clearAuthToken s else s
    (s', .reject ⟨jsOrStr body.messageField (jsOrStr body.errorField "请求失败"),
      some status⟩)

/-- Observable behaviour of the attempt/retry loop of one request:
number of attempts issued, the backoff delays slept in order, and the
final outcome (the raw axios response on success). -/
structure RequestRun (T : Type) where
  attempts : Nat
  delays : List Nat
  outcome : Except ApiErrorM (Nat × ResponseBody T)
deriving DecidableEq, Repr

/-- The attempt/retry loop induced by the response interceptor.
`transport n` is what the network does to the n-th attempt;
`retryCount` is the `config._retryCount` of the attempt being issued
(so the attempt number is `retryCount + 1`); a 2xx response resolves,
anything else goes through `responseErrorInterceptor`.  The
`retryCount < 2` guard bounds the loop at 3 attempts, so a fuel of 3 at
the top level is never exhausted. -/
def sendAux (transport : Nat → TransportResult T) :
    Nat → AuthState → Nat → List Nat → AuthState × RequestRun T
  | 0, s, retryCount, delays =>
    (s, ⟨retryCount, delays, .error ⟨"网络连接失败，请检查您的互联网连接", some 0⟩⟩)
  | fuel+1, s, retryCount, delays =>
    match transport (retryCount + 1) with
    | .response status body =>
      if 200 ≤ status ∧ status < 300 then
        (s, ⟨retryCount + 1, delays, .ok (status, body)⟩)
      else
        match responseErrorInterceptor s retryCount (.response status body) with
        | (s', .reject e) => (s', ⟨retryCount + 1, delays, .error e⟩)
        | (s', .retryAfter d rc) => sendAux transport fuel s' rc (delays ++ [d])
    | .noResponse =>
      match responseErrorInterceptor s retryCount (.noResponse : TransportResult T) with
      | (s', .reject e) => (s', ⟨retryCount + 1, delays, .error e⟩)
      | (s', .retryAfter d rc) => sendAux transport fuel s' rc (delays ++ [d])

/-- One full request through the client: start at `_retryCount`
undefined (0) with no delays slept. -/
def sendRequest (transport : Nat → TransportResult T) (s : AuthState) :
    AuthState × RequestRun T :=
  sendAux transport 3 s 0 []

/-- C2: a request all of whose attempts are connectivity failures is
retried exactly twice (3 attempts in total), sleeping 1000ms before
attempt 2 and 2000ms before attempt 3 (`1000 * 2 ^ (n-2)` before attempt
n), and finally rejects with the connectivity `ApiError` of status code
0; the auth state is untouched. -/
theorem claim_C2 {T : Type} (transport : Nat → TransportResult T) (s : AuthState)
    (h : ∀ n, transport n = .noResponse) :
    sendRequest transport s =
      (s, ⟨3, [1000 * 2 ^ 0, 1000 * 2 ^ 1],
        .error ⟨"网络连接失败，请检查您的互联网连接", some 0⟩⟩) := by
  simp [sendRequest, sendAux, responseErrorInterceptor, h]

/-- Witness for `claim_C2`: a transport that never responds. -/
theorem claim_C2_witness :
    sendRequest (fun _ => (TransportResult.noResponse : TransportResult Nat))
        ⟨some "tok", some "tok"⟩ =
      (⟨some "tok", some "tok"⟩, ⟨3, [1000 * 2 ^ 0, 1000 * 2 ^ 1],
        .error ⟨"网络连接失败，请检查您的互联网连接", some 0⟩⟩) :=
  claim_C2 _ _ (fun _ => rfl)

/-- C3 is false on the code: `handleApiResponse` on a bare payload (no
envelope) does not return the payload — `data.success` reads as
`undefined`, so it throws the fallback `ApiError` instead. -/
theorem claim_C3_counterexample :
    handleApiResponse 200 (ResponseBody.raw "hello") =
      .error ⟨"请求失败", some 200⟩ ∧
    handleApiResponse 200 (ResponseBody.raw "hello") ≠ .ok "hello" := by
  constructor <;> decide

/-- C3 (amended): `handleApiResponse` normalizes only the envelope form:
`\x7b success: true, data \x7d` yields the payload, while a direct
payload body (like every other non-conforming body) raises a structured
`ApiError` built from `message || error || '请求失败'` and the HTTP
status — for a bare payload that is the fallback message. -/
theorem claim_C3_amended {T : Type} (status : Nat) (d p : T)
    (e msg : Option String) :
    handleApiResponse status (.envelope true (some d) e msg) = .ok d ∧
    handleApiResponse status (.raw p) = .error ⟨"请求失败", some status⟩ := by
  constructor
  · simp [handleApiResponse, ResponseBody.successField, ResponseBody.dataField]
  · simp [handleApiResponse, ResponseBody.successField, ResponseBody.dataField,
      ResponseBody.messageField, ResponseBody.errorField, jsOrStr]

/-- C6: an HTTP 401 response clears the credential both in memory and in
persistent storage, is never retried (the interceptor rejects, and a
request whose first attempt gets a 401 issues exactly 1 attempt with no
backoff delays), and surfaces an `ApiError` carrying status code 401. -/
theorem claim_C6 {T : Type} (s : AuthState) (rc : Nat) (body : ResponseBody T)
    (transport : Nat → TransportResult T)
    (ht : transport 1 = .response 401 body) :
    responseErrorInterceptor s rc (.response 401 body) =
      (⟨none, none⟩, .reject ⟨jsOrStr body.messageField
        (jsOrStr body.errorField "请求失败"), some 401⟩) ∧
    sendRequest transport s =
      (⟨none, none⟩, ⟨1, [], .error ⟨jsOrStr body.messageField
        (jsOrStr body.errorField "请求失败"), some 401⟩⟩) := by
  constructor
  · simp [responseErrorInterceptor, clearAuthToken]
  · simp [sendRequest, sendAux, ht, responseErrorInterceptor, clearAuthToken]

/-- Witness for `claim_C6`: a transport answering 401 with an error body. -/
theorem claim_C6_witness :
    responseErrorInterceptor ⟨some "tok", some "tok"⟩ 0
        (.response 401 (ResponseBody.envelope (T := Nat) false none
          (some "unauthorized") none)) =
      (⟨none, none⟩, .reject ⟨"unauthorized", some 401⟩) ∧
    sendRequest (fun _ => .response 401 (ResponseBody.envelope (T := Nat) false none
          (some "unauthorized") none)) ⟨some "tok", some "tok"⟩ =
      (⟨none, none⟩, ⟨1, [], .error ⟨"unauthorized", some 401⟩⟩) := by
  simpa using claim_C6 ⟨some "tok", some "tok"⟩ 0
    (ResponseBody.envelope (T := Nat) false none (some "unauthorized") none)
    (fun _ => .response 401 (ResponseBody.envelope false none
      (some "unauthorized") none)) rfl

/-- One entry of the client's response cache: a payload and its creation
timestamp (ms). -/
structure CacheEntry (P : Type) where
  data : P
  timestamp : Nat
deriving DecidableEq, Repr

/-- The client's `cache : Map<string, \x7b data, timestamp \x7d>`,
modelled as a lookup function. -/
def Cache (P : Type) : Type := String → Option (CacheEntry P)

/-- The cache TTL constant: `5 * 60 * 1000` ms. -/
def cacheTTL : Nat := 5 * 60 * 1000

/-- `JSON.stringify` restricted to flat objects with string values, as
used on query-parameter objects: keys appear in insertion order, so two
objects that are equal as finite maps but were built in different orders
serialize differently. -/
def jsonStringifyParams (params : List (String × String)) : String :=
  "\x7b" ++ String.intercalate ","
    (params.map fun kv => "\"" ++ kv.1 ++ "\":\"" ++ kv.2 ++ "\"") ++ "\x7d"

/-- `ApiClient.getCacheKey`: `` `${url}:${JSON.stringify(params || {})}` ``
(an absent params object serializes as the empty object). -/
def getCacheKey (url : String) (params : Option (List (String × String))) : String :=
  url ++ ":" ++ jsonStringifyParams (params.getD [])

/-- `ApiClient.saveToCache`: store the payload under the key with the
current timestamp. -/
def saveToCache (cache : Cache P) (key : String) (d : P) (now : Nat) : Cache P :=
  fun k => if k = key then some ⟨d, now⟩ else cache k

/-- `ApiClient.getFromCache`: a missing key yields `null`; an entry with
`now - timestamp > cacheTTL` is deleted and yields `null`; otherwise the
stored payload is returned.  The (possibly pruned) cache is returned
alongside, since the deletion mutates the map. -/
def getFromCache (cache : Cache P) (key : String) (now : Nat) :
    Option P × Cache P :=
  match cache key with
  | none => (none, cache)
  | some cached =>
    if now - cached.timestamp > cacheTTL then
      (none, fun k => if k = key then none else cache k)
    else
      (some cached.data, cache)

/-- `ApiClient.get`: with `useCache` set, the cache is consulted first
and the early return `if (cachedData) return cachedData` is guarded by
JavaScript truthiness of the *payload* — `truthy` is the truthiness
predicate of the payload type, so a falsy cached payload (`0`, `''`,
`false`, `null`) falls through to the network exactly like a miss.  On
the fall-through path the network response (already settled by the
transport/retry layer, here the parameter `fetchResult`) is normalized
by `handleApiResponse` and a successful payload is saved to the cache
under the same key. -/
def apiGet (truthy : T → Bool)
    (fetchResult : Except ApiErrorM (Nat × ResponseBody T))
    (cache : Cache T) (url : String)
    (params : Option (List (String × String))) (useCache : Bool) (now : Nat) :
    Except ApiErrorM T × Cache T :=
  if useCache then
    let cacheKey := getCacheKey url params
    let fetchPath : Cache T → Except ApiErrorM T × Cache T := fun c =>
      match fetchResult with
      | .error e => (.error e, c)
      | .ok (status, body) =>
        match handleApiResponse status body with
        | .error e => (.error e, c)
        | .ok d => (.ok d, saveToCache c (getCacheKey url params) d now)
    match getFromCache cache cacheKey now with
    | (some cachedData, cache') =>
      if truthy cachedData then (.ok cachedData, cache')
      else fetchPath cache'
    | (none, cache') => fetchPath cache'
  else
    match fetchResult with
    | .error e => (.error e, cache)
    | .ok (status, body) =>
      match handleApiResponse status body with
      | .error e => (.error e, cache)
      | .ok d => (.ok d, cache)

/-- C4 is false on the code: the cache hit is guarded by JavaScript
truthiness of the payload (`if (cachedData) return cachedData`), so a
*falsy* stored payload — here the number `0`, with number truthiness —
is not served within the TTL: the GET falls through to the network and
returns the freshly fetched payload `5` instead of the stored `0`
(timestamps 0 and 1000 are well within the 5-minute TTL). -/
theorem claim_C4_counterexample :
    (apiGet (T := Nat) (fun n => n != 0)
        (.ok (200, .envelope true (some 5) none none))
        (saveToCache (fun _ => none) (getCacheKey "/api/learning" none) 0 0)
        "/api/learning" none true 1000).1 = .ok 5 ∧
    (apiGet (T := Nat) (fun n => n != 0)
        (.ok (200, .envelope true (some 5) none none))
        (saveToCache (fun _ => none) (getCacheKey "/api/learning" none) 0 0)
        "/api/learning" none true 1000).1 ≠ .ok 0 ∧
    1000 - 0 ≤ cacheTTL := by
  refine ⟨by decide, by decide, by decide⟩

/-- C4 (amended): after a payload is stored under a cache key at time
`t0`, a cached GET at time `t1` within the TTL returns exactly that
payload without consulting the network — provided the payload is truthy;
a falsy stored payload is treated like a miss and the network result is
surfaced instead.  After the TTL has elapsed the entry is absent either
way and the network result is surfaced, never the stale payload. -/
theorem claim_C4 {T : Type} (truthy : T → Bool) (c0 : Cache T) (url : String)
    (params : Option (List (String × String))) (d : T) (t0 t1 : Nat)
    (fetch2 : Except ApiErrorM (Nat × ResponseBody T)) (e : ApiErrorM) :
    (truthy d = true → t1 - t0 ≤ cacheTTL →
      apiGet truthy fetch2 (saveToCache c0 (getCacheKey url params) d t0)
          url params true t1 =
        (.ok d, saveToCache c0 (getCacheKey url params) d t0)) ∧
    (truthy d = false → t1 - t0 ≤ cacheTTL →
      (apiGet truthy (.error e) (saveToCache c0 (getCacheKey url params) d t0)
        url params true t1).1 = .error e) ∧
    (t1 - t0 > cacheTTL →
      (apiGet truthy (.error e) (saveToCache c0 (getCacheKey url params) d t0)
        url params true t1).1 = .error e) := by
  refine ⟨?_, ?_, ?_⟩
  · intro htr hin
    simp [apiGet, getFromCache, saveToCache, Nat.not_lt_of_le hin, htr]
  · intro htr hin
    simp [apiGet, getFromCache, saveToCache, Nat.not_lt_of_le hin, htr]
  · intro hout
    simp [apiGet, getFromCache, saveToCache, hout]

/-- Witness for `claim_C4` with number truthiness: a truthy payload (42)
served within the TTL, a falsy payload (0) refetched within the TTL, and
an expired truthy payload refetched. -/
theorem claim_C4_witness :
    apiGet (T := Nat) (fun n => n != 0)
        (.error ⟨"网络连接失败，请检查您的互联网连接", some 0⟩)
        (saveToCache (fun _ => none) (getCacheKey "/api/learning" none) 42 1000)
        "/api/learning" none true 2000 =
      (.ok 42, saveToCache (fun _ => none) (getCacheKey "/api/learning" none) 42 1000) ∧
    (apiGet (T := Nat) (fun n => n != 0)
        (.error ⟨"网络连接失败，请检查您的互联网连接", some 0⟩)
        (saveToCache (fun _ => none) (getCacheKey "/api/learning" none) 0 1000)
        "/api/learning" none true 2000).1 =
      .error ⟨"网络连接失败，请检查您的互联网连接", some 0⟩ ∧
    (apiGet (T := Nat) (fun n => n != 0)
        (.error ⟨"网络连接失败，请检查您的互联网连接", some 0⟩)
        (saveToCache (fun _ => none) (getCacheKey "/api/learning" none) 42 1000)
        "/api/learning" none true 302001).1 =
      .error ⟨"网络连接失败，请检查您的互联网连接", some 0⟩ :=
  ⟨(claim_C4 (fun n => n != 0) (fun _ => none) "/api/learning" none 42 1000 2000
      (.error ⟨"网络连接失败，请检查您的互联网连接", some 0⟩)
      ⟨"网络连接失败，请检查您的互联网连接", some 0⟩).1 (by decide) (by decide),
   (claim_C4 (fun n => n != 0) (fun _ => none) "/api/learning" none 0 1000 2000
      (.error ⟨"网络连接失败，请检查您的互联网连接", some 0⟩)
      ⟨"网络连接失败，请检查您的互联网连接", some 0⟩).2.1 (by decide) (by decide),
   (claim_C4 (fun n => n != 0) (fun _ => none) "/api/learning" none 42 1000 302001
      (.error ⟨"网络连接失败，请检查您的互联网连接", some 0⟩)
      ⟨"网络连接失败，请检查您的互联网连接", some 0⟩).2.2 (by decide)⟩

/-- Two query-parameter objects that are equal as finite maps but were
built in different key orders. -/
def paramsAB : List (String × String) := [("a", "1"), ("b", "2")]

/-- The same finite map as `paramsAB`, with the keys in the other
order. -/
def paramsBA : List (String × String) := [("b", "2"), ("a", "1")]

/-- C8 is false on the code: `getCacheKey` serializes the parameter
object with `JSON.stringify`, which preserves key insertion order, so
two parameter objects equal as finite maps can produce different cache
keys — and a `put` under one is then invisible to a `get` under the
other. -/
theorem claim_C8_counterexample :
    paramsAB.Perm paramsBA ∧
    getCacheKey "/api/learning" (some paramsAB) ≠
      getCacheKey "/api/learning" (some paramsBA) ∧
    (getFromCache
      (saveToCache (fun _ => none)
        (getCacheKey "/api/learning" (some paramsAB)) (42 : Nat) 0)
      (getCacheKey "/api/learning" (some paramsBA)) 0).1 = none := by
  refine ⟨by decide, by decide, by decide⟩

/-- C8 (amended): the cache key depends on the endpoint path and the
order-sensitive JSON serialization of the parameter object (absent
parameters serialize as the empty object).  Whenever two parameter
objects have equal serializations — in particular, identical objects, or
an absent object versus an empty one — the keys agree and a `put` under
one is visible to an in-TTL `get` under the other; mere equality as
finite maps is not sufficient. -/
theorem claim_C8_amended {P : Type} (url : String)
    (p1 p2 : Option (List (String × String)))
    (h : jsonStringifyParams (p1.getD []) = jsonStringifyParams (p2.getD []))
    (c : Cache P) (d : P) (t0 t1 : Nat) (ht : t1 - t0 ≤ cacheTTL) :
    getCacheKey url p1 = getCacheKey url p2 ∧
    (getFromCache (saveToCache c (getCacheKey url p1) d t0)
      (getCacheKey url p2) t1).1 = some d := by
  have hk : getCacheKey url p1 = getCacheKey url p2 := by
    simp [getCacheKey, h]
  refine ⟨hk, ?_⟩
  rw [← hk]
  simp [getFromCache, saveToCache, Nat.not_lt_of_le ht]

/-- Witness for `claim_C8_amended`: an absent parameter object and an
explicit empty one serialize identically, so they share a cache key. -/
theorem claim_C8_amended_witness :
    getCacheKey "/api/learning" none = getCacheKey "/api/learning" (some []) ∧
    (getFromCache (saveToCache (fun _ => none)
        (getCacheKey "/api/learning" none) (7 : Nat) 0)
      (getCacheKey "/api/learning" (some [])) 1000).1 = some 7 :=
  claim_C8_amended "/api/learning" none (some []) rfl (fun _ => none) 7 0 1000
    (by decide)

/-- `API_CONFIG.IMAGE.SUPPORTED_TYPES` of `src/services/config.ts`. -/
def SUPPORTED_TYPES : List String := ["jpg", "jpeg", "png", "heic"]

/-- The file type `uploadImage` extracts from an image URI: the last
`.`-separated segment, lowercased. -/
def fileTypeOf (imageUri : String) : String :=
  ((imageUri.splitOn ".").getLastD "").toLower

/-- `ImageUploadResponse` of `src/services/image.ts`. -/
structure ImageUploadResponse where
  taskId : String
  message : String
deriving DecidableEq, Repr

/-- Observable behaviour of one `uploadImage` call: whether the network
upload was issued, and the outcome. -/
structure UploadTrace where
  networkCalled : Bool
  outcome : Except String ImageUploadResponse
deriving DecidableEq, Repr

/-- `ImageService.uploadImage` of `src/services/image.ts`: validate that
the file exists and that its extension is a supported image type before
anything else; only then either answer with mock data or issue the
network upload (`networkUpload` stands for what
`apiClient.uploadFile` would produce). -/
def uploadImage (fileExists : Bool) (imageUri : String) (mock : Bool)
    (now : Nat) (networkUpload : Except String ImageUploadResponse) :
    UploadTrace :=
  if ¬ fileExists then
    ⟨false, .error ("文件不存在: " ++ imageUri)⟩
  else
    let fileType := fileTypeOf imageUri
    if ¬ SUPPORTED_TYPES.contains fileType then
      ⟨false, .error ("不支持的文件类型: " ++ fileType ++ ", 请使用 " ++
        String.intercalate ", " SUPPORTED_TYPES)⟩
    else if mock then
      ⟨false, .ok ⟨"mock_task_" ++ toString now, "图像上传成功，正在处理"⟩⟩
    else
      ⟨true, networkUpload⟩

/-- C9: when the file does not exist or the file-name extension is not a
supported image type, `uploadImage` fails with a validation error and
issues no network upload. -/
theorem claim_C9 (fileExists : Bool) (imageUri : String) (mock : Bool)
    (now : Nat) (net : Except String ImageUploadResponse)
    (h : fileExists = false ∨
      SUPPORTED_TYPES.contains (fileTypeOf imageUri) = false) :
    (uploadImage fileExists imageUri mock now net).networkCalled = false ∧
    ∃ msg, (uploadImage fileExists imageUri mock now net).outcome = .error msg := by
  have hcases : uploadImage fileExists imageUri mock now net =
      ⟨false, .error ("文件不存在: " ++ imageUri)⟩ ∨
      uploadImage fileExists imageUri mock now net =
      ⟨false, .error ("不支持的文件类型: " ++ fileTypeOf imageUri ++ ", 请使用 " ++
        String.intercalate ", " SUPPORTED_TYPES)⟩ := by
    rcases h with h | h
    · left; simp [uploadImage, h]
    · have h' : ¬ (fileTypeOf imageUri ∈ SUPPORTED_TYPES) := by
        simpa using h
      by_cases hf : fileExists = true
      · right; simp [uploadImage, hf, h']
      · left; simp [uploadImage, hf]
  rcases hcases with hc | hc <;> rw [hc] <;> exact ⟨rfl, _, rfl⟩

/-- Witness for `claim_C9`: a missing file — the spec's own example of a
validation error. -/
theorem claim_C9_witness :
    (uploadImage false "photo.jpg" false 0
      (.ok ⟨"t", "m"⟩)).networkCalled = false ∧
    ∃ msg, (uploadImage false "photo.jpg" false 0
      (.ok ⟨"t", "m"⟩)).outcome = .error msg :=
  claim_C9 false "photo.jpg" false 0 (.ok ⟨"t", "m"⟩) (Or.inl rfl)
